import Mathlib

/-!
# Verification of the webR JupyterLite kernel's message-mediation layer

A shallow embedding of `src/webr_kernel.ts` (the v0.1.0 kernel, svglite +
sha256 plot fingerprinting) and of the later shelter-based variant of
`handleExecRequest` (v0.3.0-rc.0), together with theorems about the
execute-request lifecycle, output classification, plot emission and
session disposal.

Modelling conventions:
* The embedded R runtime (webR) is opaque.  Its behaviour during one
  execute-request is summarised by a `RuntimeEnv` record: the outcome of
  `captureR` (a list of output items, or a thrown error message), the value
  of `dev.cur()` after evaluation, whether the `before.plot.new` hook fired
  during evaluation, and the bytes of the rendered plot file.
* `sha256().update(data).digest('hex')` from hash.js is an opaque pure
  function of the plot bytes; the embedding is parametric in it
  (`hash : String → String`).
* Outbound Jupyter messages are abstracted to their kind and the content
  fields the kernel actually computes; headers (uuid, date, session) carry
  no information relevant to the verified properties.
* JavaScript event-loop semantics for `output.forEach(async (out) => ...)`:
  each callback runs synchronously up to its first `await`; suspended
  continuations can only resume after the synchronous loop has finished.
  The webR channel answers worker requests in FIFO order, so the deferred
  continuations (which issued their requests during the loop) resume, in
  item order, before `sendPlotOutput`'s first `evalR` round-trip returns.
  Hence the delivered stream order is: all synchronous emissions in item
  order, then all deferred emissions in item order.
-/

/-- One captured output item, `{ type: string, data: unknown }`.
`textData` is the reading `out.data as string` used by the stdout/stderr
branches; `condMessage` is `await ((out.data as RList).get('message')
as RCharacter).toString()` used by the message/warning branches. -/
structure OutItem where
  type : String
  textData : String
  condMessage : String
deriving DecidableEq, Repr

/-- An outbound protocol message, abstracted to kind and computed content. -/
inductive Msg where
  /-- `sendKernelStatus`: iopub status message with an execution state. -/
  | status (executionState : String)
  /-- `sendIOReply _ 'stream'`: iopub stream message. -/
  | stream (name : String) (text : String)
  /-- `sendIOReply _ 'display_data'` with an svg payload. -/
  | displayData (mime : String) (payload : String)
  /-- `sendShellReply _ 'execute_reply'` with status ok. -/
  | executeReplyOk (executionCount : Nat)
  /-- `sendShellReply _ 'execute_reply'` with status error. -/
  | executeReplyError (executionCount : Nat) (ename : String) (evalue : String)
      (traceback : List String)
  /-- `sendKernelInfoReply`. -/
  | kernelInfoReply
deriving DecidableEq, Repr

/-- Session state of the v0.1.0 `WebRKernel` (the private class fields that
the verified code paths read or write), plus the state of the R option
`webr.fig.new`, which lives in the runtime but is owned by the session. -/
structure KState where
  isDisposed : Bool
  executionCounter : Nat
  lastPlotHash : Option String
  parentHeader : Option String
  /-- Value of the R option `webr.fig.new` (set TRUE by the
  `before.plot.new` hook, reset FALSE by the kernel after a plot is sent). -/
  figNew : Bool
  /-- Lines forwarded to the R console via `this.#webRConsole.stdin`. -/
  stdinBuf : List String
deriving DecidableEq, Repr

/-- Session state right after construction and `setupEnvironment`
(`#executionCounter = 0`, `#lastPlotHash = undefined`,
`options(webr.fig.new = FALSE)`). -/
def initialState : KState :=
  { isDisposed := false
    executionCounter := 0
    lastPlotHash := none
    parentHeader := none
    figNew := false
    stdinBuf := [] }

/-- Summary of the opaque runtime's behaviour during one execute-request. -/
structure RuntimeEnv where
  /-- Outcome of `captureR(code, …, { withAutoprint: true })`: the captured
  output items, or the `message` of the value thrown. -/
  captureResult : Except String (List OutItem)
  /-- Value of `dev.cur()` queried after evaluation. -/
  devCur : Nat
  /-- Whether evaluation fired the `before.plot.new` hook
  (which sets `options(webr.fig.new = TRUE)`). -/
  triggersNewPlot : Bool
  /-- Bytes of `/tmp/_webRplots.svg` after the `dev.copy` render. -/
  plotData : String
deriving Repr

/-- The per-item classification switch of `handleExecRequest`
(`src/webr_kernel.ts` lines 144–171), as a mapping from one output item to
the stream messages it produces.  Unknown tags hit no case of the switch
and produce nothing. -/
def classifyOutput (out : OutItem) : List Msg :=
  if out.type = "stdout" then
    [Msg.stream "stdout" (out.textData ++ "\n")]
  else if out.type = "stderr" then
    [Msg.stream "stderr" (out.textData ++ "\n")]
  else if out.type = "message" then
    [Msg.stream "stderr" (out.condMessage ++ "\n")]
  else if out.type = "warning" then
    [Msg.stream "stderr" ("Warning message:\n" ++ out.condMessage ++ "\n")]
  else
    []

/-- The part of the classification switch that runs synchronously inside the
`forEach` loop: the stdout and stderr branches contain no `await`, so their
`sendIOReply` happens during the loop itself. -/
def syncEmit (out : OutItem) : Option Msg :=
  if out.type = "stdout" then
    some (Msg.stream "stdout" (out.textData ++ "\n"))
  else if out.type = "stderr" then
    some (Msg.stream "stderr" (out.textData ++ "\n"))
  else
    none

/-- The part of the classification switch whose emission is deferred: the
message and warning branches `await cnd.get('message')` before calling
`sendIOReply`, so their emission happens only after the synchronous
`forEach` loop has completed. -/
def asyncEmit (out : OutItem) : Option Msg :=
  if out.type = "message" then
    some (Msg.stream "stderr" (out.condMessage ++ "\n"))
  else if out.type = "warning" then
    some (Msg.stream "stderr" ("Warning message:\n" ++ out.condMessage ++ "\n"))
  else
    none

/-- The order in which the stream messages of one execute-request are
actually delivered under JavaScript event-loop semantics (see the module
comment): synchronous emissions in item order, then deferred emissions in
item order. -/
def deliveredStreamMsgs (out : List OutItem) : List Msg :=
  out.filterMap syncEmit ++ out.filterMap asyncEmit

/-- The delivery order the specification requires: every item's messages in
exactly the order the runtime produced the items.  (This definition follows
the spec's ordering requirement; the per-item content is the source's
classification switch.) -/
def captureOrderMsgs (out : List OutItem) : List Msg :=
  out.flatMap classifyOutput

/-- `sendPlotOutput` (`src/webr_kernel.ts` lines 195–233).  Reads
`dev.cur()` and the `webr.fig.new` option; if a non-null graphics device is
active, renders it to svg, fingerprints the bytes, and emits a display-data
message when the new-plot flag is set, no fingerprint is stored yet, or the
fingerprint differs from the stored one; on emission it stores the new
fingerprint and resets `webr.fig.new` to FALSE. -/
def sendPlotOutput (hash : String → String) (env : RuntimeEnv) (st : KState) :
    KState × List Msg :=
  if 1 < env.devCur then
    if st.figNew || st.lastPlotHash.isNone
        || (st.lastPlotHash != some (hash env.plotData)) then
      ({ st with lastPlotHash := some (hash env.plotData), figNew := false },
        [Msg.displayData "image/svg+xml" env.plotData])
    else
      (st, [])
  else
    (st, [])

/-- Content of one execute-request. -/
structure ExecRequest where
  code : String
  storeHistory : Bool
deriving DecidableEq, Repr

/-- `handleExecRequest` (`src/webr_kernel.ts` lines 130–193): busy status;
increment the execution counter if `store_history`; `captureR`; on success
classify and emit the captured output, run `sendPlotOutput`, send an ok
reply; on a thrown error send an `Error: `-prefixed stderr line and an
error reply; finally the idle status.  Returns the successor session state
and the outbound message trace in delivery order. -/
def handleExecRequest (hash : String → String) (env : RuntimeEnv)
    (req : ExecRequest) (st : KState) : KState × List Msg :=
  let st1 : KState :=
    { st with executionCounter :=
        st.executionCounter + (if req.storeHistory then 1 else 0) }
  match env.captureResult with
  | Except.ok output =>
      let st2 : KState := { st1 with figNew := st1.figNew || env.triggersNewPlot }
      let plot := sendPlotOutput hash env st2
      (plot.1,
        Msg.status "busy" ::
          (deliveredStreamMsgs output ++ plot.2 ++
            [Msg.executeReplyOk st1.executionCounter, Msg.status "idle"]))
  | Except.error m =>
      let st2 : KState := { st1 with figNew := st1.figNew || env.triggersNewPlot }
      (st2,
        [Msg.status "busy",
          Msg.stream "stderr" ("Error: " ++ m ++ "\n"),
          Msg.executeReplyError st1.executionCounter "error" m [],
          Msg.status "idle"])

/-- One inbound message, abstracted to its `msg_type` string, its header
(opaque identity), and the content fields each branch of `handleMessage`
reads. -/
structure InMsg where
  msgType : String
  header : String
  code : String
  storeHistory : Bool
  /-- `content.status === 'ok'` of an input_reply. -/
  inputOk : Bool
  inputValue : String
deriving DecidableEq, Repr

/-- `handleMessage` (`src/webr_kernel.ts` lines 104–128): dispatch on
`msg.header.msg_type`.  Returns the successor state, the outbound protocol
messages, and the browser-console log entries (`console.warn`). -/
def handleMessage (hash : String → String) (env : RuntimeEnv) (msg : InMsg)
    (st : KState) : KState × List Msg × List String :=
  if msg.msgType = "execute_request" then
    let st1 : KState := { st with parentHeader := some msg.header }
    let r := handleExecRequest hash env ⟨msg.code, msg.storeHistory⟩ st1
    (r.1, r.2, [])
  else if msg.msgType = "input_reply" then
    if msg.inputOk then
      ({ st with stdinBuf := st.stdinBuf ++ [msg.inputValue] }, [], [])
    else
      (st, [], [])
  else if msg.msgType = "kernel_info_request" then
    ({ st with parentHeader := some msg.header },
      [Msg.kernelInfoReply, Msg.status "idle"], [])
  else
    (st, [], ["Unhandled message type: " ++ msg.msgType])

/-- `dispose` (`src/webr_kernel.ts` lines 73–79): if already disposed,
return; otherwise set the flag and emit the disposed signal.  The boolean
records whether `this.#disposed.emit` fired. -/
def dispose (st : KState) : KState × Bool :=
  if st.isDisposed then
    (st, false)
  else
    ({ st with isDisposed := true }, true)

/-- Is this message a kernel status broadcast? -/
def isStatus : Msg → Bool
  | Msg.status _ => true
  | _ => false

/-- The execution count reported by an execute-reply, if the message is one. -/
def replyCount : Msg → Option Nat
  | Msg.executeReplyOk n => some n
  | Msg.executeReplyError n _ _ _ => some n
  | _ => none

/-- Is this message an execute-reply? -/
def isExecuteReply (m : Msg) : Bool :=
  (replyCount m).isSome

/-! ## The shelter-based variant (v0.3.0-rc.0)

The later kernel replaces `webR.captureR` with a `Shelter`: the shelter is
constructed in `setupEnvironment`, each request evaluates inside it and
`purge()`s it in a `finally` block. -/

/-- Session state of the v0.3.0-rc.0 kernel restricted to shelter
accounting: how many times `new Shelter()` ran and how many times
`shelter.purge()` ran, plus the execution counter. -/
structure V2State where
  executionCounter : Nat
  /-- Number of `new this.#webRConsole.webR.Shelter()` constructions. -/
  shelterAcquired : Nat
  /-- Number of `this.#shelter.purge()` calls. -/
  purgeCount : Nat
deriving DecidableEq, Repr

/-- The v0.3.0-rc.0 `setupEnvironment`: awaits readiness and constructs the
session's single shelter (`this.#shelter = await new
this.#webRConsole.webR.Shelter()`). -/
def setupEnvironment2 (st : V2State) : V2State :=
  { st with shelterAcquired := st.shelterAcquired + 1 }

/-- The v0.3.0-rc.0 `handleExecRequest` restricted to shelter and counter
accounting: increment the counter if `store_history`, evaluate via
`shelter.captureR` (succeeding or throwing according to `env`), and in the
`finally` block call `shelter.purge()` exactly once before the idle
status.  No branch constructs a shelter. -/
def handleExecRequest2 (env : RuntimeEnv) (req : ExecRequest) (st : V2State) :
    V2State × List Msg :=
  let st1 : V2State :=
    { st with executionCounter :=
        st.executionCounter + (if req.storeHistory then 1 else 0) }
  match env.captureResult with
  | Except.ok output =>
      ({ st1 with purgeCount := st1.purgeCount + 1 },
        Msg.status "busy" ::
          (deliveredStreamMsgs output ++
            [Msg.executeReplyOk st1.executionCounter, Msg.status "idle"]))
  | Except.error m =>
      ({ st1 with purgeCount := st1.purgeCount + 1 },
        [Msg.status "busy",
          Msg.stream "stderr" ("Error: " ++ m ++ "\n"),
          Msg.executeReplyError st1.executionCounter "error" m [],
          Msg.status "idle"])

/-- A sample runtime behaviour used by concrete witnesses. -/
def envOk : RuntimeEnv :=
  { captureResult := Except.ok [⟨"stdout", "[1] 2", ""⟩]
    devCur := 2
    triggersNewPlot := true
    plotData := "<svg>demo</svg>" }

/-- A sample hash function used by concrete witnesses (standing in for the
opaque sha256 hex digest). -/
def hash0 : String → String := fun s => s

/-! ## Helper lemmas -/

theorem syncEmit_not_status {out : OutItem} {m : Msg}
    (h : syncEmit out = some m) : isStatus m = false := by
  unfold syncEmit at h
  split at h
  · cases h; rfl
  · split at h
    · cases h; rfl
    · cases h

theorem asyncEmit_not_status {out : OutItem} {m : Msg}
    (h : asyncEmit out = some m) : isStatus m = false := by
  unfold asyncEmit at h
  split at h
  · cases h; rfl
  · split at h
    · cases h; rfl
    · cases h

theorem syncEmit_not_reply {out : OutItem} {m : Msg}
    (h : syncEmit out = some m) : isExecuteReply m = false := by
  unfold syncEmit at h
  split at h
  · cases h; rfl
  · split at h
    · cases h; rfl
    · cases h

theorem asyncEmit_not_reply {out : OutItem} {m : Msg}
    (h : asyncEmit out = some m) : isExecuteReply m = false := by
  unfold asyncEmit at h
  split at h
  · cases h; rfl
  · split at h
    · cases h; rfl
    · cases h

theorem deliveredStreamMsgs_not_status {out : List OutItem} {m : Msg}
    (h : m ∈ deliveredStreamMsgs out) : isStatus m = false := by
  unfold deliveredStreamMsgs at h
  rcases List.mem_append.mp h with h' | h'
  · obtain ⟨x, _, hx⟩ := List.mem_filterMap.mp h'
    exact syncEmit_not_status hx
  · obtain ⟨x, _, hx⟩ := List.mem_filterMap.mp h'
    exact asyncEmit_not_status hx

theorem deliveredStreamMsgs_not_reply {out : List OutItem} {m : Msg}
    (h : m ∈ deliveredStreamMsgs out) : isExecuteReply m = false := by
  unfold deliveredStreamMsgs at h
  rcases List.mem_append.mp h with h' | h'
  · obtain ⟨x, _, hx⟩ := List.mem_filterMap.mp h'
    exact syncEmit_not_reply hx
  · obtain ⟨x, _, hx⟩ := List.mem_filterMap.mp h'
    exact asyncEmit_not_reply hx

theorem sendPlotOutput_msgs (hash : String → String) (env : RuntimeEnv)
    (st : KState) :
    (sendPlotOutput hash env st).2 = [] ∨
      (sendPlotOutput hash env st).2 =
        [Msg.displayData "image/svg+xml" env.plotData] := by
  unfold sendPlotOutput
  split
  · split
    · right; rfl
    · left; rfl
  · left; rfl

theorem sendPlotOutput_counter (hash : String → String) (env : RuntimeEnv)
    (st : KState) :
    (sendPlotOutput hash env st).1.executionCounter = st.executionCounter := by
  unfold sendPlotOutput
  split
  · split <;> rfl
  · rfl

theorem sendPlotOutput_isDisposed (hash : String → String) (env : RuntimeEnv)
    (st : KState) :
    (sendPlotOutput hash env st).1.isDisposed = st.isDisposed := by
  unfold sendPlotOutput
  split
  · split <;> rfl
  · rfl

theorem sendPlotOutput_parentHeader (hash : String → String) (env : RuntimeEnv)
    (st : KState) :
    (sendPlotOutput hash env st).1.parentHeader = st.parentHeader := by
  unfold sendPlotOutput
  split
  · split <;> rfl
  · rfl

theorem sendPlotOutput_stdinBuf (hash : String → String) (env : RuntimeEnv)
    (st : KState) :
    (sendPlotOutput hash env st).1.stdinBuf = st.stdinBuf := by
  unfold sendPlotOutput
  split
  · split <;> rfl
  · rfl

theorem sendPlotOutput_mem_not_status {hash : String → String}
    {env : RuntimeEnv} {st : KState} {m : Msg}
    (h : m ∈ (sendPlotOutput hash env st).2) : isStatus m = false := by
  rcases sendPlotOutput_msgs hash env st with he | he
  · rw [he] at h; cases h
  · rw [he] at h
    rcases List.mem_singleton.mp h with rfl
    rfl

theorem sendPlotOutput_mem_not_reply {hash : String → String}
    {env : RuntimeEnv} {st : KState} {m : Msg}
    (h : m ∈ (sendPlotOutput hash env st).2) : isExecuteReply m = false := by
  rcases sendPlotOutput_msgs hash env st with he | he
  · rw [he] at h; cases h
  · rw [he] at h
    rcases List.mem_singleton.mp h with rfl
    rfl

theorem isExecuteReply_not_status {m : Msg} (h : isExecuteReply m = true) :
    isStatus m = false := by
  cases m <;> first | rfl | cases h

theorem replyCount_none_of_not_reply {m : Msg} (h : isExecuteReply m = false) :
    replyCount m = none := by
  cases m <;> first | rfl | cases h

theorem filter_isStatus_nil {l : List Msg} (h : ∀ m ∈ l, isStatus m = false) :
    l.filter isStatus = [] := by
  induction l with
  | nil => rfl
  | cons a t ih =>
      rw [List.filter_cons, h a (List.mem_cons_self a t)]
      exact ih fun m hm => h m (List.mem_cons_of_mem a hm)

theorem filterMap_replyCount_nil {l : List Msg}
    (h : ∀ m ∈ l, isExecuteReply m = false) :
    l.filterMap replyCount = [] := by
  induction l with
  | nil => rfl
  | cons a t ih =>
      rw [List.filterMap_cons,
        replyCount_none_of_not_reply (h a (List.mem_cons_self a t))]
      exact ih fun m hm => h m (List.mem_cons_of_mem a hm)

/-- The emission condition of `sendPlotOutput`, read at the spec level: the
boolean `newPlotLogical || !this.#lastPlotHash || plotHash !==
this.#lastPlotHash` holds exactly when the new-plot flag is set or the fresh
fingerprint differs from the stored one (an absent stored fingerprint
counting as a difference). -/
theorem emitCond_iff (st : KState) (h : String) :
    (st.figNew || st.lastPlotHash.isNone || (st.lastPlotHash != some h)) = true ↔
      (st.figNew = true ∨ st.lastPlotHash ≠ some h) := by
  cases hl : st.lastPlotHash <;> cases hf : st.figNew <;>
    simp [hl, hf, bne_iff_ne]

theorem handleExecRequest_counter (hash : String → String) (env : RuntimeEnv)
    (req : ExecRequest) (st : KState) :
    (handleExecRequest hash env req st).1.executionCounter =
      st.executionCounter + (if req.storeHistory then 1 else 0) := by
  cases hcap : env.captureResult with
  | ok output =>
      simp only [handleExecRequest, hcap]
      rw [sendPlotOutput_counter]
  | error m =>
      simp only [handleExecRequest, hcap]

/-- Shape of every execute-request trace: one busy status first, then
status-free non-reply messages, then exactly one execute-reply carrying the
final execution count, then one idle status. -/
theorem handleExecRequest_trace_shape (hash : String → String)
    (env : RuntimeEnv) (req : ExecRequest) (st : KState) :
    ∃ mid reply,
      (handleExecRequest hash env req st).2 =
        Msg.status "busy" :: (mid ++ [reply, Msg.status "idle"]) ∧
      (∀ m ∈ mid, isStatus m = false ∧ isExecuteReply m = false) ∧
      isExecuteReply reply = true ∧
      replyCount reply = some (handleExecRequest hash env req st).1.executionCounter := by
  cases hcap : env.captureResult with
  | ok output =>
      simp only [handleExecRequest, hcap]
      refine ⟨_, _, rfl, ?_, rfl, ?_⟩
      · intro m hm
        rcases List.mem_append.mp hm with h' | h'
        · exact ⟨deliveredStreamMsgs_not_status h', deliveredStreamMsgs_not_reply h'⟩
        · exact ⟨sendPlotOutput_mem_not_status h', sendPlotOutput_mem_not_reply h'⟩
      · rw [sendPlotOutput_counter]; rfl
  | error m =>
      simp only [handleExecRequest, hcap]
      exact ⟨[Msg.stream "stderr" ("Error: " ++ m ++ "\n")], _,
        rfl,
        by intro x hx; rcases List.mem_singleton.mp hx with rfl; exact ⟨rfl, rfl⟩,
        rfl, rfl⟩

theorem sendPlotOutput_disposed_irrel (hash : String → String)
    (env : RuntimeEnv) (b1 b2 : Bool) (ec : Nat) (lph ph : Option String)
    (fn : Bool) (sb : List String) :
    sendPlotOutput hash env ⟨b1, ec, lph, ph, fn, sb⟩ =
      ({ (sendPlotOutput hash env ⟨b2, ec, lph, ph, fn, sb⟩).1 with
          isDisposed := b1 },
        (sendPlotOutput hash env ⟨b2, ec, lph, ph, fn, sb⟩).2) := by
  unfold sendPlotOutput
  dsimp only
  split
  · split <;> rfl
  · rfl

theorem handleExecRequest_disposed_irrel (hash : String → String)
    (env : RuntimeEnv) (req : ExecRequest) (b1 b2 : Bool) (ec : Nat)
    (lph ph : Option String) (fn : Bool) (sb : List String) :
    handleExecRequest hash env req ⟨b1, ec, lph, ph, fn, sb⟩ =
      ({ (handleExecRequest hash env req ⟨b2, ec, lph, ph, fn, sb⟩).1 with
          isDisposed := b1 },
        (handleExecRequest hash env req ⟨b2, ec, lph, ph, fn, sb⟩).2) := by
  cases hcap : env.captureResult with
  | ok output =>
      simp only [handleExecRequest, hcap]
      rw [sendPlotOutput_disposed_irrel hash env b1 b2
        (ec + if req.storeHistory then 1 else 0) lph ph
        (fn || env.triggersNewPlot) sb]
  | error m =>
      simp only [handleExecRequest, hcap]

theorem handleMessage_disposed_irrel (hash : String → String)
    (env : RuntimeEnv) (msg : InMsg) (b1 b2 : Bool) (ec : Nat)
    (lph ph : Option String) (fn : Bool) (sb : List String) :
    handleMessage hash env msg ⟨b1, ec, lph, ph, fn, sb⟩ =
      ({ (handleMessage hash env msg ⟨b2, ec, lph, ph, fn, sb⟩).1 with
          isDisposed := b1 },
        (handleMessage hash env msg ⟨b2, ec, lph, ph, fn, sb⟩).2) := by
  unfold handleMessage
  dsimp only
  split
  · rw [handleExecRequest_disposed_irrel hash env ⟨msg.code, msg.storeHistory⟩
      b1 b2 ec lph (some msg.header) fn sb]
  · split
    · split <;> rfl
    · split <;> rfl

/-! ## Claim theorems -/

/-- C1: for every execute-request, the plot differ emits a display-data
message exactly when a graphics device beyond the null device is active
(`dev.cur() > 1`) and either the runtime-side new-plot flag is set or the
fingerprint of the freshly rendered plot differs from the last emitted
fingerprint (an absent stored fingerprint counting as a difference); on
emission it stores the new fingerprint and clears the new-plot flag, and
when it does not emit it leaves the session state, the stored fingerprint
included, unchanged. -/
theorem c1_plot_differ_emission (hash : String → String) (env : RuntimeEnv)
    (st : KState) :
    ((sendPlotOutput hash env st).2 ≠ [] ↔
      (1 < env.devCur ∧
        (st.figNew = true ∨ st.lastPlotHash ≠ some (hash env.plotData)))) ∧
    ((sendPlotOutput hash env st).2 ≠ [] →
      (sendPlotOutput hash env st).2 =
          [Msg.displayData "image/svg+xml" env.plotData] ∧
        (sendPlotOutput hash env st).1.lastPlotHash =
          some (hash env.plotData) ∧
        (sendPlotOutput hash env st).1.figNew = false) ∧
    ((sendPlotOutput hash env st).2 = [] → (sendPlotOutput hash env st).1 = st) := by
  refine ⟨⟨?_, ?_⟩, ?_, ?_⟩
  · intro hne
    unfold sendPlotOutput at hne
    split at hne
    · rename_i hdev
      split at hne
      · rename_i hcond
        exact ⟨hdev, (emitCond_iff st (hash env.plotData)).mp hcond⟩
      · exact absurd rfl hne
    · exact absurd rfl hne
  · rintro ⟨hdev, hor⟩
    unfold sendPlotOutput
    rw [if_pos hdev, if_pos ((emitCond_iff st (hash env.plotData)).mpr hor)]
    simp
  · unfold sendPlotOutput
    split
    · split
      · intro _; exact ⟨rfl, rfl, rfl⟩
      · intro hne; exact absurd rfl hne
    · intro hne; exact absurd rfl hne
  · unfold sendPlotOutput
    split
    · split
      · intro hc; cases hc
      · intro _; rfl
    · intro _; rfl

theorem sendPlotOutput_emits_of_none {hash : String → String}
    {env : RuntimeEnv} {st : KState} (hnone : st.lastPlotHash = none)
    (hdev : 1 < env.devCur) :
    (sendPlotOutput hash env st).2 =
      [Msg.displayData "image/svg+xml" env.plotData] := by
  unfold sendPlotOutput
  rw [if_pos hdev, if_pos (by simp [hnone])]

/-- C10: on the first execute-request of a session (stored fingerprint still
absent) whose evaluation leaves a graphics device active, a display-data
message is always emitted, whatever the new-plot flag and the rendered
bytes, because the emission condition treats the absent stored fingerprint
as a difference. -/
theorem c10_first_plot_always_emitted (hash : String → String)
    (env : RuntimeEnv) (req : ExecRequest) (output : List OutItem)
    (hcap : env.captureResult = Except.ok output) (hdev : 1 < env.devCur) :
    Msg.displayData "image/svg+xml" env.plotData ∈
      (handleExecRequest hash env req initialState).2 := by
  simp only [handleExecRequest, hcap]
  rw [sendPlotOutput_emits_of_none rfl hdev]
  simp

/-- Witness for C10 at a concrete runtime behaviour and request. -/
theorem c10_first_plot_witness :
    Msg.displayData "image/svg+xml" "<svg>demo</svg>" ∈
      (handleExecRequest hash0 envOk ⟨"plot(1)", true⟩ initialState).2 :=
  c10_first_plot_always_emitted hash0 envOk ⟨"plot(1)", true⟩
    [⟨"stdout", "[1] 2", ""⟩] rfl (by decide)

/-- C2: every execute-request's outbound trace is exactly one busy status,
then status-free messages, then one execute-reply, then one idle status —
on the success and the failure path alike. -/
theorem c2_status_busy_idle_bracket (hash : String → String)
    (env : RuntimeEnv) (req : ExecRequest) (st : KState) :
    ∃ mid reply,
      (handleExecRequest hash env req st).2 =
        Msg.status "busy" :: (mid ++ [reply, Msg.status "idle"]) ∧
      (∀ m ∈ mid, isStatus m = false) ∧
      isExecuteReply reply = true ∧
      (handleExecRequest hash env req st).2.filter isStatus =
        [Msg.status "busy", Msg.status "idle"] := by
  obtain ⟨mid, reply, h1, h2, h3, -⟩ :=
    handleExecRequest_trace_shape hash env req st
  refine ⟨mid, reply, h1, fun m hm => (h2 m hm).1, h3, ?_⟩
  rw [h1]
  rw [List.filter_cons, List.filter_append,
    filter_isStatus_nil (fun m hm => (h2 m hm).1), List.filter_cons,
    List.filter_cons, isExecuteReply_not_status h3]
  rfl

/-- C3: the execution counter increases by exactly one on a store-history
request and is unchanged otherwise; the single execute-reply of the trace
reports the post-increment value (on success and failure alike); and no
message handling or disposal ever decreases the counter. -/
theorem c3_execution_counter (hash : String → String) (env : RuntimeEnv)
    (req : ExecRequest) (st : KState) :
    ((handleExecRequest hash env req st).1.executionCounter =
        st.executionCounter + (if req.storeHistory then 1 else 0)) ∧
    ((handleExecRequest hash env req st).2.filterMap replyCount =
        [(handleExecRequest hash env req st).1.executionCounter]) ∧
    (∀ msg : InMsg, st.executionCounter ≤
        (handleMessage hash env msg st).1.executionCounter) ∧
    (dispose st).1.executionCounter = st.executionCounter := by
  refine ⟨handleExecRequest_counter hash env req st, ?_, ?_, ?_⟩
  · obtain ⟨mid, reply, h1, h2, -, h4⟩ :=
      handleExecRequest_trace_shape hash env req st
    rw [h1, List.filterMap_cons, List.filterMap_append,
      filterMap_replyCount_nil (fun m hm => (h2 m hm).2),
      List.filterMap_cons, List.filterMap_cons, h4]
    rfl
  · intro msg
    unfold handleMessage
    split
    · dsimp only
      rw [handleExecRequest_counter]
      exact Nat.le_add_right _ _
    · split
      · split <;> exact Nat.le_refl _
      · split <;> exact Nat.le_refl _
  · unfold dispose
    split <;> rfl

/-- C4: when `captureR` throws, the trace is exactly busy, one stderr stream
line `Error: <message>\n`, one execute-reply with status error, ename the
literal `error`, evalue the failure message and an empty traceback, then
idle; the session state is only updated in its counter and new-plot flag,
and a subsequent execute-request again runs a full busy/reply/idle cycle. -/
theorem c4_error_path (hash : String → String) (m : String) (dev : Nat)
    (tnp : Bool) (pd : String) (req : ExecRequest) (st : KState) :
    (handleExecRequest hash ⟨Except.error m, dev, tnp, pd⟩ req st).2 =
      [Msg.status "busy",
        Msg.stream "stderr" ("Error: " ++ m ++ "\n"),
        Msg.executeReplyError
          (st.executionCounter + (if req.storeHistory then 1 else 0))
          "error" m [],
        Msg.status "idle"] ∧
    (handleExecRequest hash ⟨Except.error m, dev, tnp, pd⟩ req st).1 =
      { st with
          executionCounter :=
            st.executionCounter + (if req.storeHistory then 1 else 0),
          figNew := st.figNew || tnp } ∧
    (∀ (env2 : RuntimeEnv) (req2 : ExecRequest), ∃ mid reply,
      (handleExecRequest hash env2 req2
          (handleExecRequest hash ⟨Except.error m, dev, tnp, pd⟩ req st).1).2 =
        Msg.status "busy" :: (mid ++ [reply, Msg.status "idle"]) ∧
      isExecuteReply reply = true) := by
  refine ⟨rfl, rfl, ?_⟩
  intro env2 req2
  obtain ⟨mid, reply, h1, -, h3, -⟩ :=
    handleExecRequest_trace_shape hash env2 req2
      (handleExecRequest hash ⟨Except.error m, dev, tnp, pd⟩ req st).1
  exact ⟨mid, reply, h1, h3⟩

/-- C5: the classification of captured output items is the fixed mapping of
the switch — stdout/stderr text to a same-named stream message with a
trailing newline, a message condition to a plain stderr line, a warning
condition to a stderr line prefixed by the literal `Warning message:\n`,
and any other tag to no message at all — and items of unknown tag never
make the request fail: the reply is still status ok. -/
theorem c5_output_classification :
    (∀ s c, classifyOutput ⟨"stdout", s, c⟩ =
      [Msg.stream "stdout" (s ++ "\n")]) ∧
    (∀ s c, classifyOutput ⟨"stderr", s, c⟩ =
      [Msg.stream "stderr" (s ++ "\n")]) ∧
    (∀ s c, classifyOutput ⟨"message", s, c⟩ =
      [Msg.stream "stderr" (c ++ "\n")]) ∧
    (∀ s c, classifyOutput ⟨"warning", s, c⟩ =
      [Msg.stream "stderr" ("Warning message:\n" ++ c ++ "\n")]) ∧
    (∀ t s c, t ≠ "stdout" → t ≠ "stderr" → t ≠ "message" → t ≠ "warning" →
      classifyOutput ⟨t, s, c⟩ = []) ∧
    (∀ (hash : String → String) (dev : Nat) (tnp : Bool) (pd : String)
        (output : List OutItem) (req : ExecRequest) (st : KState),
      Msg.executeReplyOk
          (st.executionCounter + (if req.storeHistory then 1 else 0)) ∈
        (handleExecRequest hash ⟨Except.ok output, dev, tnp, pd⟩ req st).2) := by
  refine ⟨fun s c => rfl, fun s c => rfl, fun s c => rfl, fun s c => rfl,
    ?_, ?_⟩
  · intro t s c h1 h2 h3 h4
    unfold classifyOutput
    rw [if_neg h1, if_neg h2, if_neg h3, if_neg h4]
  · intro hash dev tnp pd output req st
    simp only [handleExecRequest]
    simp

/-- C6: the code violates capture-order delivery.  For the capture list
`[warning "w", stderr "s"]` the warning's emission is deferred past its
`await cnd.get('message')` while the raw stderr item is emitted
synchronously during the `forEach` loop, so the two stderr-channel messages
are delivered in the opposite of capture order; the full trace of such a
request shows the swap. -/
theorem c6_out_of_order_delivery :
    deliveredStreamMsgs [⟨"warning", "", "w"⟩, ⟨"stderr", "s", ""⟩] =
      [Msg.stream "stderr" "s\n",
        Msg.stream "stderr" "Warning message:\nw\n"] ∧
    captureOrderMsgs [⟨"warning", "", "w"⟩, ⟨"stderr", "s", ""⟩] =
      [Msg.stream "stderr" "Warning message:\nw\n",
        Msg.stream "stderr" "s\n"] ∧
    deliveredStreamMsgs [⟨"warning", "", "w"⟩, ⟨"stderr", "s", ""⟩] ≠
      captureOrderMsgs [⟨"warning", "", "w"⟩, ⟨"stderr", "s", ""⟩] ∧
    (handleExecRequest hash0
        ⟨Except.ok [⟨"warning", "", "w"⟩, ⟨"stderr", "s", ""⟩], 1, false, ""⟩
        ⟨"f()", false⟩ initialState).2 =
      [Msg.status "busy",
        Msg.stream "stderr" "s\n",
        Msg.stream "stderr" "Warning message:\nw\n",
        Msg.executeReplyOk 0, Msg.status "idle"] := by
  refine ⟨?_, ?_, ?_, ?_⟩ <;> decide

/-- C7 counterexample: after environment setup and two complete
execute-requests, the shelter has been constructed exactly once — it is a
session-wide object, not acquired per request — while `purge` has run once
per request. -/
theorem c7_shelter_session_scoped_cx :
    (handleExecRequest2 envOk ⟨"1", true⟩
        (handleExecRequest2 envOk ⟨"1", true⟩
          (setupEnvironment2 ⟨0, 0, 0⟩)).1).1.shelterAcquired = 1 ∧
    (handleExecRequest2 envOk ⟨"1", true⟩
        (handleExecRequest2 envOk ⟨"1", true⟩
          (setupEnvironment2 ⟨0, 0, 0⟩)).1).1.purgeCount = 2 := by
  decide

/-- C7 amended: the shelter is constructed once per session, during
environment setup; every execute-request purges it exactly once in the
`finally` block — on the success and the failure path alike — and
constructs no further shelter. -/
theorem c7_purge_exactly_once (env : RuntimeEnv) (req : ExecRequest)
    (st : V2State) :
    (handleExecRequest2 env req st).1.purgeCount = st.purgeCount + 1 ∧
    (handleExecRequest2 env req st).1.shelterAcquired = st.shelterAcquired ∧
    (setupEnvironment2 st).shelterAcquired = st.shelterAcquired + 1 ∧
    (setupEnvironment2 st).purgeCount = st.purgeCount := by
  cases hcap : env.captureResult <;>
    simp [handleExecRequest2, hcap, setupEnvironment2]

/-- C8 counterexample: after disposal an execute-request is still processed —
`handleMessage` emits messages and changes the session state, so it is not
a no-op on a disposed session. -/
theorem c8_not_noop_after_dispose_cx :
    (handleMessage hash0 envOk ⟨"execute_request", "h1", "1 + 1", true, false, ""⟩
        (dispose initialState).1).2.1 ≠ [] ∧
    (handleMessage hash0 envOk ⟨"execute_request", "h1", "1 + 1", true, false, ""⟩
        (dispose initialState).1).1 ≠ (dispose initialState).1 := by
  decide

/-- C8 amended: disposal is idempotent and terminal — the first `dispose`
sets the flag and emits the disposed signal, a second `dispose` changes
nothing and emits nothing — but `handleMessage` never consults the disposed
flag: a message arriving after disposal is processed exactly as before
disposal, with the flag merely staying set. -/
theorem c8_dispose_idempotent (st : KState) (hash : String → String)
    (env : RuntimeEnv) (msg : InMsg) :
    (st.isDisposed = false →
      (dispose st).1.isDisposed = true ∧ (dispose st).2 = true) ∧
    (dispose (dispose st).1).1 = (dispose st).1 ∧
    (dispose (dispose st).1).2 = false ∧
    (handleMessage hash env msg { st with isDisposed := true }).2 =
      (handleMessage hash env msg { st with isDisposed := false }).2 ∧
    (handleMessage hash env msg { st with isDisposed := true }).1 =
      { (handleMessage hash env msg { st with isDisposed := false }).1 with
          isDisposed := true } := by
  obtain ⟨b, ec, lph, ph, fn, sb⟩ := st
  refine ⟨?_, ?_, ?_, ?_, ?_⟩
  · intro h
    have hb : b = false := h
    subst hb
    simp [dispose]
  · cases b <;> simp [dispose]
  · cases b <;> simp [dispose]
  · show (handleMessage hash env msg ⟨true, ec, lph, ph, fn, sb⟩).2 =
      (handleMessage hash env msg ⟨false, ec, lph, ph, fn, sb⟩).2
    rw [handleMessage_disposed_irrel hash env msg true false ec lph ph fn sb]
  · show (handleMessage hash env msg ⟨true, ec, lph, ph, fn, sb⟩).1 =
      { (handleMessage hash env msg ⟨false, ec, lph, ph, fn, sb⟩).1 with
          isDisposed := true }
    rw [handleMessage_disposed_irrel hash env msg true false ec lph ph fn sb]

/-- C9 counterexample: a completion request sends nothing back to the
front-end at all — the only reaction is a browser-console warning — so no
"not supported" condition is signalled to the front-end. -/
theorem c9_no_frontend_reply_cx :
    (handleMessage hash0 envOk ⟨"complete_request", "h1", "", false, false, ""⟩
        initialState).2.1 = [] ∧
    (handleMessage hash0 envOk ⟨"complete_request", "h1", "", false, false, ""⟩
        initialState).2.2 =
      ["Unhandled message type: complete_request"] := by
  decide

/-- C9 amended: every inbound message whose type is none of
execute_request, input_reply and kernel_info_request — completion,
inspection, completeness-check and comm messages included — is logged to
the browser console as unhandled and dropped: no outbound message is sent
and the session state is unchanged. -/
theorem c9_unhandled_logged_and_dropped (hash : String → String)
    (env : RuntimeEnv) (msg : InMsg) (st : KState)
    (h1 : msg.msgType ≠ "execute_request") (h2 : msg.msgType ≠ "input_reply")
    (h3 : msg.msgType ≠ "kernel_info_request") :
    handleMessage hash env msg st =
      (st, [], ["Unhandled message type: " ++ msg.msgType]) := by
  unfold handleMessage
  rw [if_neg h1, if_neg h2, if_neg h3]

/-- Witness for the amended C9 at a concrete inspection request. -/
theorem c9_unhandled_witness :
    handleMessage hash0 envOk ⟨"inspect_request", "h1", "", false, false, ""⟩
        initialState =
      (initialState, [], ["Unhandled message type: inspect_request"]) := by
  have h := c9_unhandled_logged_and_dropped hash0 envOk
    ⟨"inspect_request", "h1", "", false, false, ""⟩ initialState
    (by decide) (by decide) (by decide)
  simpa using h
